import Mathlib

/-!
Shallow embedding of `src/my_mltools/geospatial.py` (class `CoordinateTransformer`)
together with the external library calls it makes (`sklearn.utils.validation.check_array`,
`sklearn.utils.validation.check_is_fitted`, `sklearn.cluster.KMeans`,
`yellowbrick.cluster.elbow.distortion_score`, `kneed.KneeLocator`), and proofs of the
specification claims about it.

Conventions of the embedding:
* a numpy entry is an `Entry` (a finite rational, NaN, an infinity, or a non-numeric
  object such as a string); a caller-supplied matrix is `RawMatrix`;
* Python exceptions become the `MLError` type: `validationError` models the
  `ValueError`s raised by `check_array` (malformed input), `invalidParamError` models
  the `ValueError`s raised inside `KMeans.fit` (bad `n_clusters`, `n_samples <
  n_clusters`), and `notFittedError` models `sklearn.exceptions.NotFittedError`;
* the stochastic k-means routine is an explicit parameter `KMeansImpl`: any labelling
  function satisfying the library contract (one label per row, labels in `[0, k)`);
* attributes that Python sets only after a phase has run (`distortion_scores_`,
  `optimal_k_`, `X_coords`, `kmeans_`, `labels_`) are `Option` fields that start `none`.
-/

namespace MyMLTools

/-- Decidable equality of `Except` results, needed to evaluate concrete runs. -/
instance {ε α : Type} [DecidableEq ε] [DecidableEq α] : DecidableEq (Except ε α)
  | .error a, .error b =>
    if h : a = b then .isTrue (by rw [h])
    else .isFalse (by intro hc; cases hc; exact h rfl)
  | .error _, .ok _ => .isFalse (by intro hc; cases hc)
  | .ok _, .error _ => .isFalse (by intro hc; cases hc)
  | .ok a, .ok b =>
    if h : a = b then .isTrue (by rw [h])
    else .isFalse (by intro hc; cases hc; exact h rfl)

/-- Error model. `validationError` and `invalidParamError` are both Python
`ValueError`s (the former raised by `check_array`, the latter by `KMeans`);
`notFittedError` is `sklearn.exceptions.NotFittedError`. The spec names these
classes `ValidationError`, `ConfigurationError`-adjacent and `InvalidStateError`. -/
inductive MLError where
  | validationError (msg : String)
  | invalidParamError (msg : String)
  | notFittedError (msg : String)
deriving DecidableEq

/-- One cell of a caller-supplied array: a finite numeric value, a NaN, an
infinity, or a non-numeric object (modelled by its string form). -/
inductive Entry where
  | num (q : ℚ)
  | nan
  | inf
  | obj (s : String)
deriving DecidableEq

/-- A caller-supplied two-dimensional array-like: a list of rows of entries. -/
abbrev RawMatrix := List (List Entry)

/-- `true` on NaN and infinite entries (floats that are not finite). -/
def Entry.isNonFinite : Entry → Bool
  | .nan => true
  | .inf => true
  | _ => false

/-- `true` on entries that numpy cannot convert to `float64` under `dtype="numeric"`. -/
def Entry.isObj : Entry → Bool
  | .obj _ => true
  | _ => false

/-- `true` on every entry that `check_array` rejects: non-numeric, NaN or infinite. -/
def Entry.isBad (e : Entry) : Bool := e.isObj || e.isNonFinite

/-- Numeric value of an entry (`0` on the non-numeric cases, which validation rules out). -/
def Entry.toRat : Entry → ℚ
  | .num q => q
  | _ => 0

/-- Number of columns of a raw matrix: the length of the first row (numpy shape). -/
def numCols (X : RawMatrix) : ℕ :=
  match X with
  | [] => 0
  | r :: _ => r.length

/-- A nested list is a well-formed 2-D array only if all rows have equal length. -/
def isRect (X : RawMatrix) : Bool :=
  X.all (fun r => r.length == numCols X)

/-- Models `sklearn.utils.validation.check_array(X, accept_sparse=False,
dtype="numeric")` as called at `geospatial.py:84` and `:119`: the input must be a
rectangular 2-D array, convertible to `float64` (no non-numeric objects), with all
entries finite (`force_all_finite` default), at least one sample and at least one
feature.  Every failure is a Python `ValueError`; on success the validated numeric
array is returned.  Note: no check on the number of columns beyond `>= 1`. -/
def check_array (X : RawMatrix) : Except MLError (List (List ℚ)) :=
  if !isRect X then
    .error (.validationError "setting an array element with a sequence. The requested array has an inhomogeneous shape.")
  else if X.any (fun r => r.any Entry.isObj) then
    .error (.validationError "could not convert string to float")
  else if X.any (fun r => r.any Entry.isNonFinite) then
    .error (.validationError "Input contains NaN, infinity or a value too large for dtype float64.")
  else if X.length == 0 then
    .error (.validationError "Found array with 0 sample(s) while a minimum of 1 is required.")
  else if numCols X == 0 then
    .error (.validationError "Found array with 0 feature(s) while a minimum of 1 is required.")
  else
    .ok (X.map (List.map Entry.toRat))

/-- Contract of the external `sklearn.cluster.KMeans` labelling routine: any
function producing one label per row with labels in `[0, k)`.  The library is
stochastic, so the embedding is parametric in the implementation; theorems
quantify over every implementation satisfying the documented contract. -/
structure KMeansImpl where
  labels : List (List ℚ) → ℕ → List ℕ
  labels_length : ∀ X k, (labels X k).length = X.length
  labels_lt : ∀ X k, 0 < k → ∀ l ∈ labels X k, l < k

/-- Models `KMeans(n_clusters=k).fit*(X)`: sklearn validates `1 <= k` (parameter
validation) and `n_samples >= n_clusters` (raising `ValueError` otherwise), then
produces the converged label vector. -/
def kmeansFit (impl : KMeansImpl) (X : List (List ℚ)) (k : ℕ) : Except MLError (List ℕ) :=
  if k < 1 then
    .error (.invalidParamError "The n_clusters parameter of KMeans must be an int in the range [1, inf).")
  else if X.length < k then
    .error (.invalidParamError "n_samples should be >= n_clusters.")
  else
    .ok (impl.labels X k)

/-- Componentwise sum of two vectors. -/
def vecAdd (p q : List ℚ) : List ℚ :=
  (p.zip q).map (fun pr => pr.1 + pr.2)

/-- Sum of a list of `c`-dimensional vectors. -/
def vecSum (c : ℕ) (vs : List (List ℚ)) : List ℚ :=
  vs.foldl vecAdd (List.replicate c 0)

/-- Scalar multiple of a vector. -/
def vecScale (a : ℚ) (p : List ℚ) : List ℚ :=
  p.map (fun x => a * x)

/-- Squared Euclidean distance between two vectors. -/
def squaredDist (p q : List ℚ) : ℚ :=
  ((p.zip q).map (fun pr => (pr.1 - pr.2) ^ 2)).sum

/-- Mean (centroid) of the points of `X` carrying label `l`. -/
def clusterMean (X : List (List ℚ)) (labels : List ℕ) (l : ℕ) : List ℚ :=
  let members := ((X.zip labels).filter (fun pr => pr.2 == l)).map Prod.fst
  vecScale (1 / (members.length : ℚ)) (vecSum (numCols' X) members)
where
  /-- Dimension of the points (length of the first row). -/
  numCols' (X : List (List ℚ)) : ℕ :=
    match X with
    | [] => 0
    | r :: _ => r.length

/-- Models `yellowbrick.cluster.elbow.distortion_score(X, labels)` with its default
squared-Euclidean metric: the sum over all points of the squared distance from the
point to the mean (center) of the cluster it is assigned to. -/
def distortion_score (X : List (List ℚ)) (labels : List ℕ) : ℚ :=
  ((X.zip labels).map (fun pr => squaredDist pr.1 (clusterMean X labels pr.2))).sum

/-- The `for k in self.k_range` loop of `fit` (`geospatial.py:87-91`): for each `k`
in order, run `KMeans(n_clusters=k)` on the validated coordinates and append
`distortion_score(X_coords, model.labels_)`; a failing run aborts the loop and
propagates its error. -/
def runSearch (impl : KMeansImpl) (X : List (List ℚ)) : List ℕ → Except MLError (List ℚ)
  | [] => .ok []
  | k :: ks =>
    match kmeansFit impl X k with
    | .error e => .error e
    | .ok labels =>
      match runSearch impl X ks with
      | .error e => .error e
      | .ok scores => .ok (distortion_score X labels :: scores)

/-- Smallest element of a list of rationals (`0` on the empty list). -/
def listMin (l : List ℚ) : ℚ :=
  match l with
  | [] => 0
  | a :: r => r.foldl min a

/-- Largest element of a list of rationals (`0` on the empty list). -/
def listMax (l : List ℚ) : ℚ :=
  match l with
  | [] => 0
  | a :: r => r.foldl max a

/-- Arithmetic mean of a list of rationals (`0` on the empty list). -/
def listMean (l : List ℚ) : ℚ :=
  l.sum / (l.length : ℚ)

/-- Absolute first differences of a sequence. -/
def absDiffs : List ℚ → List ℚ
  | a :: b :: rest => |b - a| :: absDiffs (b :: rest)
  | _ => []

/-- Fold step for `argmaxIdx`: carries (index of current best, current best value)
and the index of the next element; keeps the earlier index on ties. -/
def argmaxAux (best : ℕ × ℚ) (i : ℕ) : List ℚ → ℕ × ℚ
  | [] => best
  | v :: vs => argmaxAux (if best.2 < v then (i, v) else best) (i + 1) vs

/-- Index of the first maximum of a nonempty list (`0` on the empty list). -/
def argmaxIdx (l : List ℚ) : ℕ :=
  match l with
  | [] => 0
  | v :: vs => (argmaxAux (0, v) 1 vs).1

/-- Step 1 of the Knee Locator: min–max normalize both axes to `[0, 1]` and pair
them into the normalized curve. -/
def normalizePts (ks : List ℕ) (ys : List ℚ) : List (ℚ × ℚ) :=
  let xq : List ℚ := ks.map (fun k : ℕ => (k : ℚ))
  let xn := xq.map (fun x => (x - listMin xq) / (listMax xq - listMin xq))
  let yn := ys.map (fun y => (y - listMin ys) / (listMax ys - listMin ys))
  xn.zip yn

/-- Step 2 of the Knee Locator: the difference curve, i.e. the deviation of each
normalized point from the straight line (chord) connecting the curve's first and last
normalized points.  For the assumed convex decreasing curve the curve lies below that
chord, so the deviation is chord minus curve; this isolates curvature from the
dominant linear decreasing trend. -/
def diffCurve (pts : List (ℚ × ℚ)) : List ℚ :=
  let p0 := pts.headD (0, 0)
  let pL := pts.getLastD (0, 0)
  let slope := (pL.2 - p0.2) / (pL.1 - p0.1)
  pts.map (fun p => (p0.2 + slope * (p.1 - p0.1)) - p.2)

/-- Steps 3–5 of the Knee Locator: the knee candidate is the x-value at which the
difference curve attains its maximum (ties broken toward the smallest x: the fold keeps
the first maximum and the candidate counts are ascending); the candidate is confirmed
only if the difference-curve value there exceeds the sensitivity `S` scaled by the
average absolute first difference of the difference curve, else "no knee found". -/
def kneeFromDiff (S : ℚ) (ks : List ℕ) (d : List ℚ) : Option ℕ :=
  if S * listMean (absDiffs d) < d.getD (argmaxIdx d) 0 then some (ks.getD (argmaxIdx d) 0)
  else none

/-- Modelled from the spec: the Knee Locator (the call
`KneeLocator(x=self.k_range, y=self.distortion_scores_, curve="convex",
direction="decreasing", S=1).knee` at `geospatial.py:96-97` delegates to the external
`kneed` package, whose code is not part of this repository), following section 4.3 of
the specification: normalize both axes (`normalizePts`), form the difference curve
against the first-to-last chord (`diffCurve`), take the maximum-deviation candidate
and confirm it against the sensitivity threshold (`kneeFromDiff`).  Edge cases: a
curve with fewer than 3 points, or a degenerate curve whose normalization is undefined
(all x equal, all scores equal, or coinciding normalized endpoints — in each case a
curve with no detectable curvature), yields no knee (`none`). -/
def kneeLocate (S : ℚ) (ks : List ℕ) (ys : List ℚ) : Option ℕ :=
  if ks.length < 3 || ys.length < 3 then none
  else if listMax (ks.map (fun k : ℕ => (k : ℚ))) == listMin (ks.map (fun k : ℕ => (k : ℚ)))
          || listMax ys == listMin ys then none
  else if ((normalizePts ks ys).getLastD (0, 0)).1 == ((normalizePts ks ys).headD (0, 0)).1 then
    none
  else kneeFromDiff S ks (diffCurve (normalizePts ks ys))

/-- The state of a `CoordinateTransformer` instance: the two constructor parameters
(`geospatial.py:63-65`) plus the attributes the two phases create, each `none` while
the corresponding Python attribute does not yet exist.  `optimal_k_` is doubly
optional: the outer layer is attribute existence, the inner layer is the Python value,
which is `None` when `KneeLocator` finds no knee. -/
structure CoordinateTransformer where
  strategy : String
  k_range : List ℕ
  distortion_scores_ : Option (List ℚ) := none
  optimal_k_ : Option (Option ℕ) := none
  X_coords : Option (List (List ℚ)) := none
  kmeans_ : Option ℕ := none
  labels_ : Option (List ℕ) := none
deriving DecidableEq

/-- `CoordinateTransformer.__init__` (`geospatial.py:63-65`): stores the two
parameters; no learned attribute exists yet. -/
def mkTransformer (strategy : String) (k_range : List ℕ) : CoordinateTransformer :=
  { strategy := strategy, k_range := k_range }

/-- The default `k_range = range(4, 13)` of the constructor. -/
def defaultKRange : List ℕ := [4, 5, 6, 7, 8, 9, 10, 11, 12]

/-- Models `check_is_fitted(self, ("distortion_scores_", "optimal_k_"))`
(`geospatial.py:116`): raises `NotFittedError` unless every listed attribute exists. -/
def check_is_fitted (self : CoordinateTransformer) : Except MLError Unit :=
  if self.distortion_scores_.isSome && self.optimal_k_.isSome then .ok ()
  else .error (.notFittedError "This CoordinateTransformer instance is not fitted yet. Call fit with appropriate arguments before using this estimator.")

/-- `CoordinateTransformer.fit` (`geospatial.py:67-99`): validate and convert the
input with `check_array`; run `KMeans` once per entry of `k_range`, collecting the
distortion scores; store the scores; store the `KneeLocator` knee (possibly `None`) as
`optimal_k_`; return `self`.  No error is raised when no knee is found and no check is
made on the length of `k_range`. -/
def CoordinateTransformer.fit (impl : KMeansImpl) (self : CoordinateTransformer)
    (X : RawMatrix) : Except MLError CoordinateTransformer :=
  match check_array X with
  | .error e => .error e
  | .ok X_coords =>
    match runSearch impl X_coords self.k_range with
    | .error e => .error e
    | .ok distortion_scores =>
      .ok { self with
              distortion_scores_ := some distortion_scores,
              optimal_k_ := some (kneeLocate 1 self.k_range distortion_scores) }

/-- `CoordinateTransformer.transform` (`geospatial.py:101-131`): check the instance is
fitted; validate and convert the input; store it as `X_coords`; fit
`KMeans(n_clusters=self.optimal_k_)` on it (a stored `None` fails KMeans parameter
validation with a `ValueError`); store the model and its labels; return the labels
reshaped to a single `(n, 1)` column.  On an error the partial attribute writes Python
would leave behind are not modelled; no claim depends on them. -/
def CoordinateTransformer.transform (impl : KMeansImpl) (self : CoordinateTransformer)
    (X : RawMatrix) : Except MLError (CoordinateTransformer × List (List ℕ)) :=
  match check_is_fitted self with
  | .error e => .error e
  | .ok _ =>
    match check_array X with
    | .error e => .error e
    | .ok X_coords =>
      match self.optimal_k_ with
      | some (some k) =>
        match kmeansFit impl X_coords k with
        | .error e => .error e
        | .ok labels =>
          .ok ({ self with
                   X_coords := some X_coords,
                   kmeans_ := some k,
                   labels_ := some labels },
               labels.map (fun l => [l]))
      | _ => .error (.invalidParamError "The n_clusters parameter of KMeans must be an int in the range [1, inf).")

/-- A conformant k-means implementation that puts every point in cluster `0`
(the convergence result, for example, when all points coincide: every partition then
has zero distortion, so any converged run is observationally equivalent to this one). -/
def trivialKMeans : KMeansImpl where
  labels X _ := X.map (fun _ => 0)
  labels_length := by intro X k; simp
  labels_lt := by
    intro X k hk l hl
    simp at hl
    omega

/-- A conformant k-means implementation that gives each of the first `k - 1` points
its own singleton cluster and lumps the remaining points into cluster `k - 1`
(a valid converged partition on points spread along a line). -/
def lumpKMeans : KMeansImpl where
  labels X k := (List.range X.length).map (fun i => min i (k - 1))
  labels_length := by intro X k; simp
  labels_lt := by
    intro X k hk l hl
    simp at hl
    obtain ⟨i, _, hi⟩ := hl
    omega

/-! ### Lemmas about the embedded operations -/

theorem check_array_ok_val {X : RawMatrix} {Xc : List (List ℚ)}
    (h : check_array X = .ok Xc) : Xc = X.map (List.map Entry.toRat) := by
  unfold check_array at h
  split at h
  · cases h
  · split at h
    · cases h
    · split at h
      · cases h
      · split at h
        · cases h
        · split at h
          · cases h
          · cases h; rfl

theorem check_array_ok_len {X : RawMatrix} {Xc : List (List ℚ)}
    (h : check_array X = .ok Xc) : Xc.length = X.length := by
  rw [check_array_ok_val h]
  simp

theorem check_array_err {X : RawMatrix} {e : MLError}
    (h : check_array X = .error e) : ∃ m, e = .validationError m := by
  unfold check_array at h
  split at h
  · cases h; exact ⟨_, rfl⟩
  · split at h
    · cases h; exact ⟨_, rfl⟩
    · split at h
      · cases h; exact ⟨_, rfl⟩
      · split at h
        · cases h; exact ⟨_, rfl⟩
        · split at h
          · cases h; exact ⟨_, rfl⟩
          · cases h

theorem check_array_bad {X : RawMatrix}
    (hbad : X.any (fun r => r.any Entry.isBad) = true) :
    ∃ m, check_array X = .error (.validationError m) := by
  unfold check_array
  split
  · exact ⟨_, rfl⟩
  · split
    · exact ⟨_, rfl⟩
    · rename_i hobj
      split
      · exact ⟨_, rfl⟩
      · rename_i hfin
        exfalso
        simp only [List.any_eq_true, Entry.isBad, Bool.or_eq_true] at hbad
        obtain ⟨r, hr, e, he, hcase⟩ := hbad
        rcases hcase with hc | hc
        · exact hobj (by simp only [List.any_eq_true]; exact ⟨r, hr, e, he, hc⟩)
        · exact hfin (by simp only [List.any_eq_true]; exact ⟨r, hr, e, he, hc⟩)

theorem kmeansFit_eq_ok (impl : KMeansImpl) (X : List (List ℚ)) (k : ℕ)
    (h1 : 1 ≤ k) (h2 : k ≤ X.length) :
    kmeansFit impl X k = .ok (impl.labels X k) := by
  unfold kmeansFit
  rw [if_neg (by omega), if_neg (by omega)]

theorem kmeansFit_ok_elim {impl : KMeansImpl} {X : List (List ℚ)} {k : ℕ} {ls : List ℕ}
    (h : kmeansFit impl X k = .ok ls) :
    1 ≤ k ∧ k ≤ X.length ∧ ls = impl.labels X k := by
  unfold kmeansFit at h
  split at h
  · cases h
  · split at h
    · cases h
    · cases h
      refine ⟨by omega, by omega, rfl⟩

theorem runSearch_ok_iff (impl : KMeansImpl) (X : List (List ℚ)) :
    ∀ (ks : List ℕ) (scores : List ℚ),
      runSearch impl X ks = .ok scores ↔
        ((∀ k ∈ ks, 1 ≤ k ∧ k ≤ X.length) ∧
         scores = ks.map (fun k => distortion_score X (impl.labels X k))) := by
  intro ks
  induction ks with
  | nil =>
    intro scores
    constructor
    · intro h
      unfold runSearch at h
      cases h
      simp
    · rintro ⟨-, h⟩
      simp only [List.map_nil] at h
      subst h
      rfl
  | cons k ks ih =>
    intro scores
    constructor
    · intro h
      unfold runSearch at h
      cases hk : kmeansFit impl X k with
      | error e => rw [hk] at h; cases h
      | ok labels =>
        rw [hk] at h
        cases hr : runSearch impl X ks with
        | error e => rw [hr] at h; cases h
        | ok rest =>
          rw [hr] at h
          cases h
          obtain ⟨hk1, hk2, hlab⟩ := kmeansFit_ok_elim hk
          obtain ⟨hb, hsc⟩ := (ih rest).mp hr
          refine ⟨?_, ?_⟩
          · intro k' hk'
            rcases List.mem_cons.mp hk' with h' | h'
            · subst h'; exact ⟨hk1, hk2⟩
            · exact hb k' h'
          · simp [hlab, hsc]
    · rintro ⟨hb, rfl⟩
      have h1 := hb k (List.mem_cons_self k ks)
      have htl : runSearch impl X ks = .ok (ks.map (fun k => distortion_score X (impl.labels X k))) :=
        (ih _).mpr ⟨fun k' h' => hb k' (List.mem_cons_of_mem _ h'), rfl⟩
      unfold runSearch
      rw [kmeansFit_eq_ok impl X k h1.1 h1.2, htl]
      simp

theorem fit_eq_ok (impl : KMeansImpl) (self : CoordinateTransformer) (X : RawMatrix)
    (Xc : List (List ℚ)) (scores : List ℚ)
    (hca : check_array X = .ok Xc)
    (hrs : runSearch impl Xc self.k_range = .ok scores) :
    CoordinateTransformer.fit impl self X =
      .ok { self with distortion_scores_ := some scores,
                      optimal_k_ := some (kneeLocate 1 self.k_range scores) } := by
  unfold CoordinateTransformer.fit
  simp only [hca, hrs]

theorem fit_ok_elim {impl : KMeansImpl} {self st : CoordinateTransformer} {X : RawMatrix}
    (h : CoordinateTransformer.fit impl self X = .ok st) :
    ∃ Xc scores, check_array X = .ok Xc ∧ runSearch impl Xc self.k_range = .ok scores ∧
      st = { self with distortion_scores_ := some scores,
                       optimal_k_ := some (kneeLocate 1 self.k_range scores) } := by
  unfold CoordinateTransformer.fit at h
  cases hca : check_array X with
  | error e => rw [hca] at h; cases h
  | ok Xc =>
    simp only [hca] at h
    cases hrs : runSearch impl Xc self.k_range with
    | error e => simp only [hrs] at h; cases h
    | ok scores =>
      simp only [hrs] at h
      cases h
      exact ⟨Xc, scores, rfl, hrs, rfl⟩

theorem fit_err_of_check_array {impl : KMeansImpl} {self : CoordinateTransformer}
    {X : RawMatrix} {e : MLError} (h : check_array X = .error e) :
    CoordinateTransformer.fit impl self X = .error e := by
  unfold CoordinateTransformer.fit
  rw [h]

theorem transform_err_of_check_array {impl : KMeansImpl} {self : CoordinateTransformer}
    {X : RawMatrix} {e : MLError}
    (hds : self.distortion_scores_.isSome = true)
    (hok : self.optimal_k_.isSome = true)
    (h : check_array X = .error e) :
    CoordinateTransformer.transform impl self X = .error e := by
  unfold CoordinateTransformer.transform check_is_fitted
  rw [if_pos (by rw [hds, hok]; rfl), h]

theorem transform_eq_ok (impl : KMeansImpl) (self : CoordinateTransformer) (X : RawMatrix)
    (Xc : List (List ℚ)) (k : ℕ)
    (hds : self.distortion_scores_.isSome = true)
    (hok : self.optimal_k_ = some (some k))
    (hca : check_array X = .ok Xc)
    (h1 : 1 ≤ k) (h2 : k ≤ Xc.length) :
    CoordinateTransformer.transform impl self X =
      .ok ({ self with X_coords := some Xc, kmeans_ := some k,
                       labels_ := some (impl.labels Xc k) },
           (impl.labels Xc k).map (fun l => [l])) := by
  unfold CoordinateTransformer.transform check_is_fitted
  rw [if_pos (by rw [hds, hok]; rfl)]
  simp only [hca, hok, kmeansFit_eq_ok impl Xc k h1 h2]

theorem argmaxAux_fst : ∀ (vs : List ℚ) (b : ℕ × ℚ) (i : ℕ),
    (argmaxAux b i vs).1 = b.1 ∨ (i ≤ (argmaxAux b i vs).1 ∧ (argmaxAux b i vs).1 < i + vs.length) := by
  intro vs
  induction vs with
  | nil => intro b i; left; rfl
  | cons v vs ih =>
    intro b i
    by_cases hv : b.2 < v
    · have h := ih (i, v) (i + 1)
      unfold argmaxAux
      rw [if_pos hv]
      rcases h with h | h
      · right
        rw [h]
        simp
      · right
        simp only [List.length_cons]
        omega
    · have h := ih b (i + 1)
      unfold argmaxAux
      rw [if_neg hv]
      rcases h with h | h
      · left
        exact h
      · right
        simp only [List.length_cons]
        omega

theorem argmaxIdx_lt {l : List ℚ} (h : l ≠ []) : argmaxIdx l < l.length := by
  cases l with
  | nil => exact absurd rfl h
  | cons v vs =>
    show (argmaxAux (0, v) 1 vs).1 < (v :: vs).length
    rcases argmaxAux_fst vs (0, v) 1 with h' | h'
    · rw [h']
      simp
    · simp only [List.length_cons]
      omega

theorem normalizePts_length (ks : List ℕ) (ys : List ℚ) :
    (normalizePts ks ys).length = min ks.length ys.length := by
  unfold normalizePts
  rw [List.length_zip, List.length_map, List.length_map]
  simp

theorem diffCurve_length (pts : List (ℚ × ℚ)) : (diffCurve pts).length = pts.length := by
  unfold diffCurve
  simp

theorem kneeFromDiff_mem {S : ℚ} {ks : List ℕ} {d : List ℚ} {k : ℕ}
    (hne : d ≠ []) (hle : d.length ≤ ks.length)
    (h : kneeFromDiff S ks d = some k) : k ∈ ks := by
  unfold kneeFromDiff at h
  split at h
  · cases h
    have hi : argmaxIdx d < ks.length := lt_of_lt_of_le (argmaxIdx_lt hne) hle
    rw [List.getD_eq_getElem?_getD, List.getElem?_eq_getElem hi]
    exact List.getElem_mem hi
  · cases h

theorem kneeLocate_mem {S : ℚ} {ks : List ℕ} {ys : List ℚ} {k : ℕ}
    (h : kneeLocate S ks ys = some k) : k ∈ ks := by
  unfold kneeLocate at h
  split at h
  · cases h
  · rename_i hlen
    simp only [Bool.or_eq_true, decide_eq_true_eq, not_or, not_lt] at hlen
    split at h
    · cases h
    · split at h
      · cases h
      · refine kneeFromDiff_mem ?_ ?_ h
        · intro hnil
          have hl := congrArg List.length hnil
          rw [diffCurve_length, normalizePts_length] at hl
          simp only [List.length_nil] at hl
          omega
        · rw [diffCurve_length, normalizePts_length]
          omega

theorem kneeLocate_none_of_short {S : ℚ} {ks : List ℕ} (ys : List ℚ)
    (hlen : ks.length < 3) : kneeLocate S ks ys = none := by
  unfold kneeLocate
  rw [if_pos]
  simp [hlen]

theorem fit_err_of_runSearch {impl : KMeansImpl} {self : CoordinateTransformer}
    {X : RawMatrix} {Xc : List (List ℚ)} {e : MLError}
    (hca : check_array X = .ok Xc)
    (hrs : runSearch impl Xc self.k_range = .error e) :
    CoordinateTransformer.fit impl self X = .error e := by
  unfold CoordinateTransformer.fit
  simp only [hca, hrs]

theorem transform_none_k (impl : KMeansImpl) (self : CoordinateTransformer)
    (X : RawMatrix) (Xc : List (List ℚ))
    (hds : self.distortion_scores_.isSome = true)
    (hok : self.optimal_k_ = some none)
    (hca : check_array X = .ok Xc) :
    CoordinateTransformer.transform impl self X =
      .error (.invalidParamError "The n_clusters parameter of KMeans must be an int in the range [1, inf).") := by
  unfold CoordinateTransformer.transform check_is_fitted
  rw [if_pos (by rw [hds, hok]; rfl)]
  simp only [hca, hok]

theorem transform_reduce (impl : KMeansImpl) (self : CoordinateTransformer)
    (X : RawMatrix) (Xc : List (List ℚ)) (k : ℕ)
    (hds : self.distortion_scores_.isSome = true)
    (hok : self.optimal_k_ = some (some k))
    (hca : check_array X = .ok Xc) :
    CoordinateTransformer.transform impl self X =
      match kmeansFit impl Xc k with
      | .error e => .error e
      | .ok labels =>
        .ok ({ self with X_coords := some Xc, kmeans_ := some k,
                         labels_ := some labels },
             labels.map (fun l => [l])) := by
  unfold CoordinateTransformer.transform check_is_fitted
  rw [if_pos (by rw [hds, hok]; rfl)]
  simp only [hca, hok]

theorem transform_notFitted (impl : KMeansImpl) (self : CoordinateTransformer)
    (X : RawMatrix)
    (h : (self.distortion_scores_.isSome && self.optimal_k_.isSome) = false) :
    CoordinateTransformer.transform impl self X =
      .error (.notFittedError "This CoordinateTransformer instance is not fitted yet. Call fit with appropriate arguments before using this estimator.") := by
  unfold CoordinateTransformer.transform check_is_fitted
  rw [if_neg (by simp [h])]

/-- Everything observable about an instance except the stored `strategy` string:
the candidate range and the five learned attributes. -/
def observe (st : CoordinateTransformer) :
    List ℕ × Option (List ℚ) × Option (Option ℕ) × Option (List (List ℚ)) × Option ℕ × Option (List ℕ) :=
  (st.k_range, st.distortion_scores_, st.optimal_k_, st.X_coords, st.kmeans_, st.labels_)

/-- The `fit_transform` convenience composition inherited from
`sklearn.base.TransformerMixin`: `fit` on fresh construction parameters, then
`transform` on the same data. -/
def fitTransform (impl : KMeansImpl) (s : String) (kr : List ℕ) (X : RawMatrix) :
    Except MLError (CoordinateTransformer × List (List ℕ)) :=
  match CoordinateTransformer.fit impl (mkTransformer s kr) X with
  | .error e => .error e
  | .ok st => CoordinateTransformer.transform impl st X

/-- The program state visible across one call: the caller's array object together
with the transformer instance. -/
structure ProgState where
  callerX : RawMatrix
  inst : CoordinateTransformer

/-- Frame of `check_array` (sklearn): it reads its argument and either raises or
returns a validated numeric array (a new array, or the argument itself when no dtype
conversion is needed); it performs no write to the caller's object. -/
def check_array_frame (buf : RawMatrix) : Except MLError (List (List ℚ)) × RawMatrix :=
  (check_array buf, buf)

/-- Frame of the `for` loop of `fit`: every `KMeans.fit_transform` call runs with the
default `copy_x=True`, so the data are copied before centering and the argument is
left intact, and `distortion_score` only reads its arguments. -/
def runSearch_frame (impl : KMeansImpl) (Xc : List (List ℚ)) (ks : List ℕ)
    (buf : RawMatrix) : Except MLError (List ℚ) × RawMatrix :=
  (runSearch impl Xc ks, buf)

/-- Frame of `KMeans(...).fit_predict` in `transform`: default `copy_x=True`, the
argument is not written. -/
def kmeans_frame (impl : KMeansImpl) (Xc : List (List ℚ)) (k : ℕ)
    (buf : RawMatrix) : Except MLError (List ℕ) × RawMatrix :=
  (kmeansFit impl Xc k, buf)

/-- `fit` replayed over the explicit program state, each external call going through
its frame-annotated version; the Python body contains no store to `X` itself. -/
def fitProgram (impl : KMeansImpl) (p : ProgState) :
    Except MLError CoordinateTransformer × RawMatrix :=
  match check_array_frame p.callerX with
  | (.error e, buf1) => (.error e, buf1)
  | (.ok Xc, buf1) =>
    match runSearch_frame impl Xc p.inst.k_range buf1 with
    | (.error e, buf2) => (.error e, buf2)
    | (.ok scores, buf2) =>
      (.ok { p.inst with
               distortion_scores_ := some scores,
               optimal_k_ := some (kneeLocate 1 p.inst.k_range scores) }, buf2)

/-- `transform` replayed over the explicit program state, each external call going
through its frame-annotated version. -/
def transformProgram (impl : KMeansImpl) (p : ProgState) :
    Except MLError (CoordinateTransformer × List (List ℕ)) × RawMatrix :=
  match check_is_fitted p.inst with
  | .error e => (.error e, p.callerX)
  | .ok _ =>
    match check_array_frame p.callerX with
    | (.error e, buf1) => (.error e, buf1)
    | (.ok Xc, buf1) =>
      match p.inst.optimal_k_ with
      | some (some k) =>
        match kmeans_frame impl Xc k buf1 with
        | (.error e, buf2) => (.error e, buf2)
        | (.ok labels, buf2) =>
          (.ok ({ p.inst with
                    X_coords := some Xc,
                    kmeans_ := some k,
                    labels_ := some labels },
                labels.map (fun l => [l])), buf2)
      | _ => (.error (.invalidParamError "The n_clusters parameter of KMeans must be an int in the range [1, inf)."), buf1)

/-! ### Concrete fixtures used by witnesses and counterexamples -/

/-- `n` distinct collinear coordinate points `(0,0), (1,0), ..., (n-1,0)` as a raw
caller input. -/
def lineRaw (n : ℕ) : RawMatrix :=
  (List.range n).map (fun i : ℕ => [Entry.num (i : ℚ), Entry.num 0])

/-- The validated numeric form of `lineRaw n`. -/
def lineMat (n : ℕ) : List (List ℚ) :=
  (List.range n).map (fun i : ℕ => [(i : ℚ), 0])

/-- A valid 4-row, 3-column numeric input (not a 2-column coordinate matrix). -/
def threeColRaw : RawMatrix :=
  [[Entry.num 1, Entry.num 2, Entry.num 3],
   [Entry.num 1, Entry.num 2, Entry.num 3],
   [Entry.num 5, Entry.num 6, Entry.num 7],
   [Entry.num 5, Entry.num 6, Entry.num 7]]

/-- A 2-column matrix containing a NaN entry. -/
def nanRaw : RawMatrix :=
  [[Entry.num 1, Entry.nan], [Entry.num 3, Entry.num 4]]

/-- The state `fit` produces from `lumpKMeans`, `k_range = [2..7]` and `lineRaw 8`:
distortion scores `[28, 35/2, 10, 5, 2, 1/2]` (a convex decreasing curve) and the
knee at `k = 4`. -/
def stKnee : CoordinateTransformer :=
  { strategy := "kmeans", k_range := [2, 3, 4, 5, 6, 7],
    distortion_scores_ := some [28, 35 / 2, 10, 5, 2, 1 / 2],
    optimal_k_ := some (some 4) }

/-- A minimal fitted state (both learned attributes present). -/
def stFitted : CoordinateTransformer :=
  { strategy := "kmeans", k_range := [4],
    distortion_scores_ := some [0],
    optimal_k_ := some (some 1) }

/-- `true` exactly on results that are a `check_array`-style validation failure
(a Python `ValueError` over malformed input). -/
def isValidationFailure {α : Type} : Except MLError α → Bool
  | .error (.validationError _) => true
  | _ => false


/-- Six identical points, raw form. -/
def idRaw6 : RawMatrix := List.replicate 6 [Entry.num 2, Entry.num 3]

/-- Six identical points, validated form. -/
def idMat6 : List (List ℚ) := List.replicate 6 [2, 3]

/-- Five identical points, raw form. -/
def idRaw5 : RawMatrix := List.replicate 5 [Entry.num 0, Entry.num 1]

/-- Five identical points, validated form. -/
def idMat5 : List (List ℚ) := List.replicate 5 [0, 1]

/-- Four identical points, raw form. -/
def idRaw4 : RawMatrix := List.replicate 4 [Entry.num 1, Entry.num 1]

/-- Four identical points, validated form. -/
def idMat4 : List (List ℚ) := List.replicate 4 [1, 1]

/-- The validated form of `threeColRaw`. -/
def threeColMat : List (List ℚ) := [[1, 2, 3], [1, 2, 3], [5, 6, 7], [5, 6, 7]]

/-! ### Concrete evaluations of the distortion evaluator and the search loop -/

theorem score_id6 (k : ℕ) :
    distortion_score idMat6 (trivialKMeans.labels idMat6 k) = 0 := by
  norm_num [distortion_score, squaredDist, clusterMean, clusterMean.numCols', vecScale,
    vecSum, vecAdd, List.zip, List.replicate, Function.comp, trivialKMeans, idMat6]

theorem score_id5 (k : ℕ) :
    distortion_score idMat5 (trivialKMeans.labels idMat5 k) = 0 := by
  norm_num [distortion_score, squaredDist, clusterMean, clusterMean.numCols', vecScale,
    vecSum, vecAdd, List.zip, List.replicate, Function.comp, trivialKMeans, idMat5]

theorem score_id4 (k : ℕ) :
    distortion_score idMat4 (trivialKMeans.labels idMat4 k) = 0 := by
  norm_num [distortion_score, squaredDist, clusterMean, clusterMean.numCols', vecScale,
    vecSum, vecAdd, List.zip, List.replicate, Function.comp, trivialKMeans, idMat4]

theorem score_threeCol (k : ℕ) :
    distortion_score threeColMat (trivialKMeans.labels threeColMat k) = 48 := by
  norm_num [distortion_score, squaredDist, clusterMean, clusterMean.numCols', vecScale,
    vecSum, vecAdd, List.zip, List.replicate, Function.comp, trivialKMeans, threeColMat]

theorem score_line8_2 : distortion_score (lineMat 8) (lumpKMeans.labels (lineMat 8) 2) = 28 := by
  norm_num [distortion_score, squaredDist, clusterMean, clusterMean.numCols', vecScale,
    vecSum, vecAdd, List.zip, List.replicate, Function.comp, lumpKMeans, lineMat, List.range_succ]

theorem score_line8_3 : distortion_score (lineMat 8) (lumpKMeans.labels (lineMat 8) 3) = 35 / 2 := by
  norm_num [distortion_score, squaredDist, clusterMean, clusterMean.numCols', vecScale,
    vecSum, vecAdd, List.zip, List.replicate, Function.comp, lumpKMeans, lineMat, List.range_succ]

theorem score_line8_4 : distortion_score (lineMat 8) (lumpKMeans.labels (lineMat 8) 4) = 10 := by
  norm_num [distortion_score, squaredDist, clusterMean, clusterMean.numCols', vecScale,
    vecSum, vecAdd, List.zip, List.replicate, Function.comp, lumpKMeans, lineMat, List.range_succ]

theorem score_line8_5 : distortion_score (lineMat 8) (lumpKMeans.labels (lineMat 8) 5) = 5 := by
  norm_num [distortion_score, squaredDist, clusterMean, clusterMean.numCols', vecScale,
    vecSum, vecAdd, List.zip, List.replicate, Function.comp, lumpKMeans, lineMat, List.range_succ]

theorem score_line8_6 : distortion_score (lineMat 8) (lumpKMeans.labels (lineMat 8) 6) = 2 := by
  norm_num [distortion_score, squaredDist, clusterMean, clusterMean.numCols', vecScale,
    vecSum, vecAdd, List.zip, List.replicate, Function.comp, lumpKMeans, lineMat, List.range_succ]

theorem score_line8_7 : distortion_score (lineMat 8) (lumpKMeans.labels (lineMat 8) 7) = 1 / 2 := by
  norm_num [distortion_score, squaredDist, clusterMean, clusterMean.numCols', vecScale,
    vecSum, vecAdd, List.zip, List.replicate, Function.comp, lumpKMeans, lineMat, List.range_succ]

theorem runSearch_id6 : runSearch trivialKMeans idMat6 [4, 5, 6] = .ok [0, 0, 0] := by
  rw [runSearch_ok_iff]
  exact ⟨by decide, by simp [score_id6]⟩

theorem runSearch_id5 : runSearch trivialKMeans idMat5 [4, 5] = .ok [0, 0] := by
  rw [runSearch_ok_iff]
  exact ⟨by decide, by simp [score_id5]⟩

theorem runSearch_id4 : runSearch trivialKMeans idMat4 [2, 3, 4] = .ok [0, 0, 0] := by
  rw [runSearch_ok_iff]
  exact ⟨by decide, by simp [score_id4]⟩

theorem runSearch_threeCol : runSearch trivialKMeans threeColMat [1, 2] = .ok [48, 48] := by
  rw [runSearch_ok_iff]
  exact ⟨by decide, by simp [score_threeCol]⟩

theorem runSearch_line8 :
    runSearch lumpKMeans (lineMat 8) [2, 3, 4, 5, 6, 7] =
      .ok [28, 35 / 2, 10, 5, 2, 1 / 2] := by
  rw [runSearch_ok_iff]
  refine ⟨by decide, ?_⟩
  simp [score_line8_2, score_line8_3, score_line8_4, score_line8_5, score_line8_6,
    score_line8_7]

/-- The knee of the concrete convex decreasing curve produced on `lineMat 8`. -/
theorem knee_line8 :
    kneeLocate 1 [2, 3, 4, 5, 6, 7] [28, 35 / 2, 10, 5, 2, 1 / 2] = some 4 := by
  norm_num [kneeLocate, normalizePts, diffCurve, kneeFromDiff, argmaxIdx, argmaxAux,
    listMin, listMax, listMean, absDiffs, List.zip, min_def, max_def, abs, beq_iff_eq]

/-- `fit` on `lineRaw 8` with `lumpKMeans` and range `[2..7]` reaches `stKnee`. -/
theorem fit_line8 :
    CoordinateTransformer.fit lumpKMeans (mkTransformer "kmeans" [2, 3, 4, 5, 6, 7])
      (lineRaw 8) = .ok stKnee := by
  have h := fit_eq_ok lumpKMeans (mkTransformer "kmeans" [2, 3, 4, 5, 6, 7]) (lineRaw 8)
    (lineMat 8) [28, 35 / 2, 10, 5, 2, 1 / 2] (by decide) runSearch_line8
  simp only [mkTransformer] at h
  rw [knee_line8] at h
  exact h

/-! ### Claim theorems -/

/-- C1, counterexample: on six identical points every clustering has zero distortion
(each point coincides with its cluster center), so the distortion curve is
`[0, 0, 0]` — a zero-curvature curve in which the Knee Locator finds no knee — and
yet `fit` returns successfully, storing Python `None` as `optimal_k_`, instead of
raising a `ConfigurationError`.  This refutes the claim that `fit` raises rather than
returning successfully when no knee is found. -/
theorem c1_fit_no_knee_returns_ok_cex :
    (CoordinateTransformer.fit trivialKMeans (mkTransformer "kmeans" [4, 5, 6]) idRaw6).map
      (fun st => (st.distortion_scores_, st.optimal_k_)) =
      .ok (some [0, 0, 0], some none) := by
  have h := fit_eq_ok trivialKMeans (mkTransformer "kmeans" [4, 5, 6]) idRaw6 idMat6
    [0, 0, 0] (by decide) runSearch_id6
  rw [h]
  rfl

/-- C1, amended: if the Knee Locator finds no knee, `fit` does not raise at all — it
returns successfully, storing the distortion curve and `None` (`some none`) as the
optimal count; the missing `k` is not reported until a later `transform` fails inside
KMeans.  (The source has no `ConfigurationError` and never inspects the knee.) -/
theorem c1_fit_no_knee_stores_none (impl : KMeansImpl) (self : CoordinateTransformer)
    (X : RawMatrix) (Xc : List (List ℚ)) (scores : List ℚ)
    (hca : check_array X = .ok Xc)
    (hrs : runSearch impl Xc self.k_range = .ok scores)
    (hknee : kneeLocate 1 self.k_range scores = none) :
    CoordinateTransformer.fit impl self X =
      .ok { self with distortion_scores_ := some scores, optimal_k_ := some none } := by
  have h := fit_eq_ok impl self X Xc scores hca hrs
  rw [hknee] at h
  exact h

/-- Witness for C1's amended theorem at a concrete no-knee input. -/
theorem c1_fit_no_knee_stores_none_witness :
    check_array idRaw6 = .ok idMat6 ∧
    runSearch trivialKMeans idMat6 [4, 5, 6] = .ok [0, 0, 0] ∧
    kneeLocate 1 [4, 5, 6] [0, 0, 0] = none ∧
    CoordinateTransformer.fit trivialKMeans (mkTransformer "kmeans" [4, 5, 6]) idRaw6 =
      .ok { mkTransformer "kmeans" [4, 5, 6] with
              distortion_scores_ := some [0, 0, 0], optimal_k_ := some none } :=
  ⟨by decide, runSearch_id6, by decide,
   c1_fit_no_knee_stores_none trivialKMeans (mkTransformer "kmeans" [4, 5, 6])
     idRaw6 idMat6 [0, 0, 0] (by decide) runSearch_id6 (by decide)⟩

/-- C2, counterexample: with a candidate range of only two entries, `fit` raises no
`ConfigurationError`: it runs both clusterings and returns successfully, storing the
two scores and `None` as the optimal count. -/
theorem c2_fit_short_range_no_error_cex :
    (mkTransformer "kmeans" [4, 5]).k_range.length = 2 ∧
    (CoordinateTransformer.fit trivialKMeans (mkTransformer "kmeans" [4, 5]) idRaw5).map
      (fun st => (st.distortion_scores_, st.optimal_k_)) =
      .ok (some [0, 0], some none) := by
  refine ⟨by decide, ?_⟩
  have h := fit_eq_ok trivialKMeans (mkTransformer "kmeans" [4, 5]) idRaw5 idMat5
    [0, 0] (by decide) runSearch_id5
  rw [h]
  rfl

/-- C2, amended: for a candidate range with fewer than 3 entries, `fit` performs no
length check and raises nothing on that account: whenever validation and the
per-candidate clustering runs succeed, `fit` completes and stores `None` as the
optimal count (the knee locator yields no knee on fewer than three points). -/
theorem c2_fit_short_range_completes (impl : KMeansImpl) (self : CoordinateTransformer)
    (X : RawMatrix) (Xc : List (List ℚ)) (scores : List ℚ)
    (hlen : self.k_range.length < 3)
    (hca : check_array X = .ok Xc)
    (hrs : runSearch impl Xc self.k_range = .ok scores) :
    CoordinateTransformer.fit impl self X =
      .ok { self with distortion_scores_ := some scores, optimal_k_ := some none } := by
  have h := fit_eq_ok impl self X Xc scores hca hrs
  rw [kneeLocate_none_of_short scores hlen] at h
  exact h

/-- Witness for C2's amended theorem at a concrete 2-entry range. -/
theorem c2_fit_short_range_completes_witness :
    (mkTransformer "kmeans" [4, 5]).k_range.length < 3 ∧
    CoordinateTransformer.fit trivialKMeans (mkTransformer "kmeans" [4, 5]) idRaw5 =
      .ok { mkTransformer "kmeans" [4, 5] with
              distortion_scores_ := some [0, 0], optimal_k_ := some none } :=
  ⟨by decide,
   c2_fit_short_range_completes trivialKMeans (mkTransformer "kmeans" [4, 5])
     idRaw5 idMat5 [0, 0] (by decide) (by decide) runSearch_id5⟩

/-- C3, counterexample: a perfectly valid 5-row coordinate matrix and the length-3
candidate range `[4, 5, 6]`: the clustering run at `k = 6` exceeds the sample count,
so `fit` (and hence `fit` followed by `transform`) raises a `ValueError` and no label
sequence is ever returned, refuting the unconditional claim. -/
theorem c3_fit_transform_fails_cex :
    check_array (lineRaw 5) = .ok [[0, 0], [1, 0], [2, 0], [3, 0], [4, 0]] ∧
    (mkTransformer "kmeans" [4, 5, 6]).k_range.length = 3 ∧
    fitTransform trivialKMeans "kmeans" [4, 5, 6] (lineRaw 5) =
      .error (.invalidParamError "n_samples should be >= n_clusters.") := by
  refine ⟨by decide, by decide, by decide⟩

/-- C3, amended: whenever `fit` returns successfully with a knee found
(`optimal_k_ = some (some k)`), `transform` on the same matrix succeeds and returns a
single-column label sequence of length equal to the input row count with every label
in `[0, k)`, for every conformant k-means implementation. -/
theorem c3_fit_transform_label_shape (impl : KMeansImpl) (self st : CoordinateTransformer)
    (X : RawMatrix) (k : ℕ)
    (hfit : CoordinateTransformer.fit impl self X = .ok st)
    (hk : st.optimal_k_ = some (some k)) :
    (CoordinateTransformer.transform impl st X).map
      (fun r => (r.2.length, r.2.all (fun row => row.length == 1 && row.all (fun l => decide (l < k))))) =
      .ok (X.length, true) := by
  obtain ⟨Xc, scores, hca, hrs, hst⟩ := fit_ok_elim hfit
  subst hst
  have hknee : kneeLocate 1 self.k_range scores = some k := Option.some.inj hk
  have hmem : k ∈ self.k_range := kneeLocate_mem hknee
  have hbounds := ((runSearch_ok_iff impl Xc self.k_range scores).mp hrs).1 k hmem
  rw [transform_eq_ok impl _ X Xc k (by rfl) hk hca hbounds.1 hbounds.2]
  have hlen : (impl.labels Xc k).length = X.length := by
    rw [impl.labels_length, check_array_ok_len hca]
  have hall : (List.map (fun l => [l]) (impl.labels Xc k)).all
      (fun row => row.length == 1 && row.all (fun l => decide (l < k))) = true := by
    rw [List.all_eq_true]
    intro row hrow
    rw [List.mem_map] at hrow
    obtain ⟨l, hl, rfl⟩ := hrow
    have : l < k := impl.labels_lt Xc k (by omega) l hl
    simp [this]
  simp only [Except.map, List.length_map, hlen, hall]

/-- Witness for C3's amended theorem: on eight collinear points with range `[2..7]`
and the conformant `lumpKMeans` implementation, `fit` finds the knee `k = 4` and
`transform` returns eight singleton rows with labels below 4. -/
theorem c3_fit_transform_label_shape_witness :
    CoordinateTransformer.fit lumpKMeans (mkTransformer "kmeans" [2, 3, 4, 5, 6, 7])
        (lineRaw 8) = .ok stKnee ∧
    stKnee.optimal_k_ = some (some 4) ∧
    (CoordinateTransformer.transform lumpKMeans stKnee (lineRaw 8)).map
      (fun r => (r.2.length, r.2.all (fun row => row.length == 1 && row.all (fun l => decide (l < 4))))) =
      .ok ((lineRaw 8).length, true) :=
  ⟨fit_line8, by decide,
   c3_fit_transform_label_shape lumpKMeans (mkTransformer "kmeans" [2, 3, 4, 5, 6, 7])
     stKnee (lineRaw 8) 4 fit_line8 (by decide)⟩

/-- C4, confirmed: `transform` on a fresh, never-fitted instance (any strategy, any
candidate range, any input) always returns the `NotFittedError` whose message names
the required prior step ("is not fitted yet. Call fit ..."), and it does so for every
k-means implementation — the result does not depend on the clustering routine, so no
clustering computation is consulted before the error. -/
theorem c4_transform_unfitted_raises (impl : KMeansImpl) (s : String)
    (kr : List ℕ) (X : RawMatrix) :
    CoordinateTransformer.transform impl (mkTransformer s kr) X =
      .error (.notFittedError "This CoordinateTransformer instance is not fitted yet. Call fit with appropriate arguments before using this estimator.") :=
  transform_notFitted impl (mkTransformer s kr) X rfl

/-- C5, confirmed: for every input containing a NaN, infinite or non-numeric entry,
`fit` (from any state) and `transform` (from any fitted state) fail with a validation
`ValueError`, for every k-means implementation — validation precedes and forestalls
any clustering computation, and the failure is returned to the caller, never
corrected or retried. -/
theorem c5_validation_precedes_clustering (impl : KMeansImpl)
    (self fitted : CoordinateTransformer) (X : RawMatrix)
    (hbad : X.any (fun r => r.any Entry.isBad) = true)
    (hds : fitted.distortion_scores_.isSome = true)
    (hok : fitted.optimal_k_.isSome = true) :
    isValidationFailure (CoordinateTransformer.fit impl self X) = true ∧
    isValidationFailure (CoordinateTransformer.transform impl fitted X) = true := by
  obtain ⟨m, hm⟩ := check_array_bad hbad
  constructor
  · rw [fit_err_of_check_array hm]
    rfl
  · rw [transform_err_of_check_array hds hok hm]
    rfl

/-- Witness for C5 at a concrete NaN-bearing matrix and a concrete fitted state. -/
theorem c5_validation_precedes_clustering_witness :
    nanRaw.any (fun r => r.any Entry.isBad) = true ∧
    isValidationFailure (CoordinateTransformer.fit trivialKMeans
        (mkTransformer "kmeans" defaultKRange) nanRaw) = true ∧
    isValidationFailure (CoordinateTransformer.transform trivialKMeans stFitted nanRaw) = true :=
  ⟨by decide,
   (c5_validation_precedes_clustering trivialKMeans (mkTransformer "kmeans" defaultKRange)
      stFitted nanRaw (by decide) (by decide) (by decide)).1,
   (c5_validation_precedes_clustering trivialKMeans (mkTransformer "kmeans" defaultKRange)
      stFitted nanRaw (by decide) (by decide) (by decide)).2⟩

/-- A matrix with no bad entry has, in particular, no non-numeric entry and no
non-finite entry. -/
theorem noBad_split {X : RawMatrix}
    (h : X.any (fun r => r.any Entry.isBad) = false) :
    X.any (fun r => r.any Entry.isObj) = false ∧
    X.any (fun r => r.any Entry.isNonFinite) = false := by
  constructor
  · rw [Bool.eq_false_iff]
    intro hcon
    rw [Bool.eq_false_iff] at h
    apply h
    simp only [List.any_eq_true] at hcon ⊢
    obtain ⟨r, hr, e, he, hb⟩ := hcon
    exact ⟨r, hr, e, he, by simp [Entry.isBad, hb]⟩
  · rw [Bool.eq_false_iff]
    intro hcon
    rw [Bool.eq_false_iff] at h
    apply h
    simp only [List.any_eq_true] at hcon ⊢
    obtain ⟨r, hr, e, he, hb⟩ := hcon
    exact ⟨r, hr, e, he, by simp [Entry.isBad, hb]⟩

/-- C6, counterexample: a 4-row, **3-column** all-finite numeric matrix passes
validation unchanged and `fit` runs the clustering search on it to completion (the
two distortion scores are produced), instead of being rejected with a
`ValidationError`: the code never checks that the column count is 2. -/
theorem c6_three_column_accepted_cex :
    numCols threeColRaw = 3 ∧
    check_array threeColRaw = .ok threeColMat ∧
    (CoordinateTransformer.fit trivialKMeans (mkTransformer "kmeans" [1, 2]) threeColRaw).map
      (fun st => st.distortion_scores_) = .ok (some [48, 48]) := by
  refine ⟨by decide, by decide, ?_⟩
  have h := fit_eq_ok trivialKMeans (mkTransformer "kmeans" [1, 2]) threeColRaw
    threeColMat [48, 48] (by decide) runSearch_threeCol
  rw [h]
  rfl

/-- C6, amended: `fit` and `transform` validate that the input is a rectangular 2-D
numeric array with all entries finite and at least one row and one column, each
defect rejected with its own `ValueError` message — but the column count is **not**
checked against 2: every rectangular all-finite numeric matrix with any positive
number of columns passes validation. -/
theorem c6_check_array_ignores_width (X : RawMatrix)
    (hrect : isRect X = true)
    (hgood : X.any (fun r => r.any Entry.isBad) = false)
    (hn : X.length ≠ 0) (hc : numCols X ≠ 0) :
    check_array X = .ok (X.map (List.map Entry.toRat)) := by
  obtain ⟨hobj, hfin⟩ := noBad_split hgood
  unfold check_array
  rw [if_neg (by simp [hrect]), if_neg (by simp [hobj]), if_neg (by simp [hfin]),
      if_neg (by simp [hn]), if_neg (by simp [hc])]

/-- Witness for C6's amended theorem at the concrete 3-column matrix. -/
theorem c6_check_array_ignores_width_witness :
    isRect threeColRaw = true ∧
    numCols threeColRaw ≠ 0 ∧
    check_array threeColRaw = .ok (threeColRaw.map (List.map Entry.toRat)) :=
  ⟨by decide, by decide,
   c6_check_array_ignores_width threeColRaw (by decide) (by decide) (by decide) (by decide)⟩

/-- C7, counterexample: on four identical points with range `[2, 3, 4]` the
distortion curve is flat, the Knee Locator finds no knee, `fit` returns successfully
— and the stored `optimal_k_` is Python `None`, which is not an integer and not an
element of the candidate range, refuting the claim that every successful `fit`
stores an element of the range. -/
theorem c7_fit_optimal_none_cex :
    (CoordinateTransformer.fit trivialKMeans (mkTransformer "kmeans" [2, 3, 4]) idRaw4).map
      (fun st => st.optimal_k_) = .ok (some none) := by
  have h := fit_eq_ok trivialKMeans (mkTransformer "kmeans" [2, 3, 4]) idRaw4 idMat4
    [0, 0, 0] (by decide) runSearch_id4
  rw [h]
  rfl

/-- C7, amended: every successful `fit` overwrites `optimal_k_` with the Knee
Locator's result; that value is either Python `None` (no knee found) or an integer
element of the candidate range — when it is an integer, it is an element of
`k_range`, but `None` is also possible after a successful `fit`. -/
theorem c7_fit_optimal_in_range (impl : KMeansImpl) (self st : CoordinateTransformer)
    (X : RawMatrix)
    (hfit : CoordinateTransformer.fit impl self X = .ok st) :
    st.optimal_k_.isSome = true ∧
    ∀ k : ℕ, st.optimal_k_ = some (some k) → k ∈ self.k_range := by
  obtain ⟨Xc, scores, hca, hrs, hst⟩ := fit_ok_elim hfit
  subst hst
  refine ⟨rfl, ?_⟩
  intro k hk
  exact kneeLocate_mem (Option.some.inj hk)

/-- Witness for C7's amended theorem at the concrete knee-finding run. -/
theorem c7_fit_optimal_in_range_witness :
    CoordinateTransformer.fit lumpKMeans (mkTransformer "kmeans" [2, 3, 4, 5, 6, 7])
        (lineRaw 8) = .ok stKnee ∧
    stKnee.optimal_k_.isSome = true ∧
    (∀ k : ℕ, stKnee.optimal_k_ = some (some k) → k ∈ (mkTransformer "kmeans" [2, 3, 4, 5, 6, 7]).k_range) :=
  ⟨fit_line8,
   (c7_fit_optimal_in_range lumpKMeans (mkTransformer "kmeans" [2, 3, 4, 5, 6, 7])
      stKnee (lineRaw 8) fit_line8).1,
   (c7_fit_optimal_in_range lumpKMeans (mkTransformer "kmeans" [2, 3, 4, 5, 6, 7])
      stKnee (lineRaw 8) fit_line8).2⟩

/-- C8, confirmed: on a strictly increasing candidate range whose entries are all
feasible (`1 <= k <= n`), `fit` succeeds and stores exactly one distortion score per
range entry, in the range's (ascending) order, the `i`-th score being the distortion
evaluator's value — the sum of squared distances of each point to its assigned
cluster's center — for the clustering run at the `i`-th candidate count; each
candidate is evaluated once, positionally pairing the curve with the range. -/
theorem c8_fit_distortion_curve (impl : KMeansImpl) (self : CoordinateTransformer)
    (X : RawMatrix) (Xc : List (List ℚ))
    (_hchain : List.Chain' (· < ·) self.k_range)
    (hca : check_array X = .ok Xc)
    (hks : ∀ k ∈ self.k_range, 1 ≤ k ∧ k ≤ Xc.length) :
    (CoordinateTransformer.fit impl self X).map (fun st => st.distortion_scores_) =
      .ok (some (self.k_range.map (fun k => distortion_score Xc (impl.labels Xc k)))) := by
  have hrs := (runSearch_ok_iff impl Xc self.k_range
    (self.k_range.map (fun k => distortion_score Xc (impl.labels Xc k)))).mpr ⟨hks, rfl⟩
  rw [fit_eq_ok impl self X Xc _ hca hrs]
  rfl

/-- Witness for C8 at the concrete eight-point run. -/
theorem c8_fit_distortion_curve_witness :
    List.Chain' (· < ·) (mkTransformer "kmeans" [2, 3, 4, 5, 6, 7]).k_range ∧
    check_array (lineRaw 8) = .ok (lineMat 8) ∧
    (∀ k ∈ (mkTransformer "kmeans" [2, 3, 4, 5, 6, 7]).k_range, 1 ≤ k ∧ k ≤ (lineMat 8).length) ∧
    (CoordinateTransformer.fit lumpKMeans (mkTransformer "kmeans" [2, 3, 4, 5, 6, 7])
        (lineRaw 8)).map (fun st => st.distortion_scores_) =
      .ok (some ((mkTransformer "kmeans" [2, 3, 4, 5, 6, 7]).k_range.map
        (fun k => distortion_score (lineMat 8) (lumpKMeans.labels (lineMat 8) k)))) :=
  ⟨by norm_num [mkTransformer, List.chain'_cons], by decide, by decide,
   c8_fit_distortion_curve lumpKMeans (mkTransformer "kmeans" [2, 3, 4, 5, 6, 7])
     (lineRaw 8) (lineMat 8) (by norm_num [mkTransformer, List.chain'_cons]) (by decide)
     (by decide)⟩

/-- C9, confirmed: the `strategy` constructor parameter is stored but never read:
for any two strategy strings and identical candidate range, input and clustering
randomness (the same k-means implementation), `fit` produces identical observable
state (curve, optimal count, and all other learned attributes) and `fit` followed by
`transform` produces identical label output — clustering is k-means regardless of
`strategy`. -/
theorem c9_strategy_has_no_effect (impl : KMeansImpl) (s1 s2 : String)
    (kr : List ℕ) (X : RawMatrix) :
    (CoordinateTransformer.fit impl (mkTransformer s1 kr) X).map observe =
      (CoordinateTransformer.fit impl (mkTransformer s2 kr) X).map observe ∧
    (fitTransform impl s1 kr X).map (fun r => (observe r.1, r.2)) =
      (fitTransform impl s2 kr X).map (fun r => (observe r.1, r.2)) := by
  cases hca : check_array X with
  | error e =>
    have h1 : CoordinateTransformer.fit impl (mkTransformer s1 kr) X = .error e :=
      fit_err_of_check_array hca
    have h2 : CoordinateTransformer.fit impl (mkTransformer s2 kr) X = .error e :=
      fit_err_of_check_array hca
    constructor
    · rw [h1, h2]
    · unfold fitTransform
      rw [h1, h2]
  | ok Xc =>
    cases hrs : runSearch impl Xc kr with
    | error e =>
      have h1 : CoordinateTransformer.fit impl (mkTransformer s1 kr) X = .error e :=
        fit_err_of_runSearch hca hrs
      have h2 : CoordinateTransformer.fit impl (mkTransformer s2 kr) X = .error e :=
        fit_err_of_runSearch hca hrs
      constructor
      · rw [h1, h2]
      · unfold fitTransform
        rw [h1, h2]
    | ok scores =>
      have h1 := fit_eq_ok impl (mkTransformer s1 kr) X Xc scores hca hrs
      have h2 := fit_eq_ok impl (mkTransformer s2 kr) X Xc scores hca hrs
      constructor
      · rw [h1, h2]
        rfl
      · unfold fitTransform
        rw [h1, h2]
        show (CoordinateTransformer.transform impl _ X).map _ =
          (CoordinateTransformer.transform impl _ X).map _
        cases hknee : kneeLocate 1 kr scores with
        | none =>
          rw [transform_none_k impl _ X Xc (by rfl)
                (by show some (kneeLocate 1 kr scores) = some none; rw [hknee]) hca,
              transform_none_k impl _ X Xc (by rfl)
                (by show some (kneeLocate 1 kr scores) = some none; rw [hknee]) hca]
        | some k =>
          rw [transform_reduce impl _ X Xc k (by rfl)
                (by show some (kneeLocate 1 kr scores) = some (some k); rw [hknee]) hca,
              transform_reduce impl _ X Xc k (by rfl)
                (by show some (kneeLocate 1 kr scores) = some (some k); rw [hknee]) hca]
          cases kmeansFit impl Xc k with
          | error e => rfl
          | ok labels => rfl

/-- `fitProgram` computes exactly what `fit` computes, and leaves the caller's array
untouched: every external call it makes carries a read-only frame on the caller's
object. -/
theorem fitProgram_spec (impl : KMeansImpl) (p : ProgState) :
    fitProgram impl p = (CoordinateTransformer.fit impl p.inst p.callerX, p.callerX) := by
  unfold fitProgram check_array_frame runSearch_frame CoordinateTransformer.fit
  cases hca : check_array p.callerX with
  | error e => rfl
  | ok Xc =>
    cases hrs : runSearch impl Xc p.inst.k_range with
    | error e => simp [hrs]
    | ok scores => simp [hrs]

/-- `transformProgram` computes exactly what `transform` computes, and leaves the
caller's array untouched. -/
theorem transformProgram_spec (impl : KMeansImpl) (p : ProgState) :
    transformProgram impl p =
      (CoordinateTransformer.transform impl p.inst p.callerX, p.callerX) := by
  unfold transformProgram check_array_frame kmeans_frame CoordinateTransformer.transform
  cases hcf : check_is_fitted p.inst with
  | error e => rfl
  | ok u =>
    cases hca : check_array p.callerX with
    | error e => simp
    | ok Xc =>
      cases hok : p.inst.optimal_k_ with
      | none => simp [hok]
      | some okv =>
        cases okv with
        | none => simp [hok]
        | some k =>
          cases hkf : kmeansFit impl Xc k with
          | error e => simp [hok, hkf]
          | ok labels => simp [hok, hkf]

/-- C10, confirmed: neither `fit` nor `transform` writes to the caller's input
matrix.  Replaying each operation over an explicit program state in which every
external call carries its documented frame — `check_array` returns a validated array
without writing its argument, `KMeans` runs with its default `copy_x=True` so the
data are copied before centering, and `distortion_score` only reads — the caller's
array component is returned unchanged (and the computed result is exactly the
original `fit`/`transform` result). -/
theorem c10_no_input_mutation (impl : KMeansImpl) (self : CoordinateTransformer)
    (buf : RawMatrix) :
    fitProgram impl ⟨buf, self⟩ = (CoordinateTransformer.fit impl self buf, buf) ∧
    transformProgram impl ⟨buf, self⟩ =
      (CoordinateTransformer.transform impl self buf, buf) :=
  ⟨fitProgram_spec impl ⟨buf, self⟩, transformProgram_spec impl ⟨buf, self⟩⟩

end MyMLTools
